import Mathlib

/-!
Verification of the invoicing server actions (`src/app/lib/actions.ts`) and the
session-authorization callback (`src/auth.config.ts`).

The actions run in a JavaScript runtime, so numbers are IEEE-754 binary64
values.  We embed them as exact rationals together with an explicit
round-to-nearest-even function (`fround`): every finite double is a rational,
and each arithmetic step of the source is modelled by the exact rational
operation followed by `fround`.  Overflow to infinity and subnormal rounding
are not modelled; every numeric value appearing in this development lies well
inside the normal range of binary64.
-/

namespace Dashboard

/-! Section: IEEE-754 binary64 rounding, embedded in ℚ -/

/-- Fuel-bounded floor of the base-2 logarithm (structural recursion so that
the kernel can evaluate it). -/
def log2fuel : ℕ → ℕ → ℕ
  | 0, _ => 0
  | fuel + 1, n => if 2 ≤ n then log2fuel fuel (n / 2) + 1 else 0

/-- Value `floorLog2 n` is `⌊log₂ n⌋` for `n ≥ 1`. -/
def floorLog2 (n : ℕ) : ℕ :=
  log2fuel n n

/-- Fuel-bounded search for the least `m` with `1 ≤ q * 2 ^ m` (used for the
binary exponent of rationals below 1). -/
def negExpFuel : ℕ → ℚ → ℕ
  | 0, _ => 0
  | fuel + 1, q => if 1 ≤ q then 0 else negExpFuel fuel (2 * q) + 1

/-- Binary exponent of a positive rational: the unique `e` with
`2 ^ e ≤ q < 2 ^ (e + 1)` (meaningful for `q > 0`). -/
def qExp2 (q : ℚ) : ℤ :=
  if 1 ≤ q then (floorLog2 ⌊q⌋₊ : ℤ) else -(negExpFuel q.den q : ℤ)

/-- Round a rational to the nearest integer, ties to even (the IEEE-754
default rounding of a tie). -/
def roundHalfEven (q : ℚ) : ℤ :=
  if q - ⌊q⌋ < 1 / 2 then ⌊q⌋
  else if 1 / 2 < q - ⌊q⌋ then ⌊q⌋ + 1
  else if 2 ∣ ⌊q⌋ then ⌊q⌋ else ⌊q⌋ + 1

/-- Round a positive rational to the nearest binary64 value (53 significant
bits, nearest-even). -/
def froundPos (q : ℚ) : ℚ :=
  (roundHalfEven (q * 2 ^ ((52 : ℤ) - qExp2 q)) : ℚ) * 2 ^ (qExp2 q - (52 : ℤ))

/-- Round a rational to the nearest binary64 value. -/
def fround (q : ℚ) : ℚ :=
  if q = 0 then 0 else if 0 < q then froundPos q else -froundPos (-q)

/-- Exact model of JavaScript `x * y` on doubles: the exact product, rounded
back to binary64. -/
def fmul (x y : ℚ) : ℚ :=
  fround (x * y)

/-! Evaluation lemmas for the rounding model. -/

theorem roundHalfEven_of_le_of_lt (q : ℚ) (n : ℤ) (h1 : (n : ℚ) ≤ q)
    (h2 : q < (n : ℚ) + 1 / 2) : roundHalfEven q = n := by
  have hf : ⌊q⌋ = n := by
    rw [Int.floor_eq_iff]
    exact ⟨h1, by linarith⟩
  rw [roundHalfEven, hf, if_pos (by linarith)]

theorem qExp2_of_natFloor (q : ℚ) (k : ℕ) (h1 : (1 : ℚ) ≤ q) (hk : ⌊q⌋₊ = k) :
    qExp2 q = (floorLog2 k : ℤ) := by
  rw [qExp2, if_pos h1, hk]

theorem fround_of_pos (q : ℚ) (h0 : q ≠ 0) (hp : 0 < q) :
    fround q = froundPos q := by
  rw [fround, if_neg h0, if_pos hp]

theorem fround_zero : fround 0 = 0 := by
  rw [fround, if_pos rfl]

theorem froundPos_eval (q : ℚ) (e m : ℤ) (he : qExp2 q = e)
    (hm : roundHalfEven (q * 2 ^ ((52 : ℤ) - e)) = m) :
    froundPos q = (m : ℚ) * 2 ^ (e - (52 : ℤ)) := by
  rw [froundPos, he, hm]

/-- The double nearest to the decimal 19.99 is `5626684784446013 / 2^48`. -/
theorem fround_19_99 : fround ((1999 : ℚ) / 100) = 5626684784446013 / 2 ^ 48 := by
  have hfl : ⌊(1999 : ℚ) / 100⌋₊ = 19 := by
    rw [Nat.floor_eq_iff (by norm_num)]; norm_num
  have he : qExp2 ((1999 : ℚ) / 100) = 4 := by
    rw [qExp2_of_natFloor _ 19 (by norm_num) hfl]
    norm_num [show floorLog2 19 = 4 from by decide]
  have harg : ((1999 : ℚ) / 100) * 2 ^ ((52 : ℤ) - 4) = 140667119611150336 / 25 := by
    norm_num
  have hm : roundHalfEven (((1999 : ℚ) / 100) * 2 ^ ((52 : ℤ) - 4)) = 5626684784446013 := by
    rw [harg]
    exact roundHalfEven_of_le_of_lt _ _ (by norm_num) (by norm_num)
  rw [fround_of_pos _ (by norm_num) (by norm_num), froundPos_eval _ 4 _ he hm]
  norm_num

/-- Multiplying that double by 100 rounds to `8791694975696895 / 2^42`,
which is strictly below 1999. -/
theorem fmul_19_99_100 :
    fmul ((5626684784446013 : ℚ) / 2 ^ 48) 100 = 8791694975696895 / 2 ^ 42 := by
  have hprod : ((5626684784446013 : ℚ) / 2 ^ 48) * 100 = 140667119611150325 / 70368744177664 := by
    norm_num
  have hfl : ⌊(140667119611150325 : ℚ) / 70368744177664⌋₊ = 1998 := by
    rw [Nat.floor_eq_iff (by norm_num)]; norm_num
  have he : qExp2 ((140667119611150325 : ℚ) / 70368744177664) = 10 := by
    rw [qExp2_of_natFloor _ 1998 (by norm_num) hfl]
    norm_num [show floorLog2 1998 = 10 from by decide]
  have harg : ((140667119611150325 : ℚ) / 70368744177664) * 2 ^ ((52 : ℤ) - 10)
      = 140667119611150325 / 16 := by
    norm_num
  have hm : roundHalfEven (((140667119611150325 : ℚ) / 70368744177664) * 2 ^ ((52 : ℤ) - 10))
      = 8791694975696895 := by
    rw [harg]
    exact roundHalfEven_of_le_of_lt _ _ (by norm_num) (by norm_num)
  rw [fmul, hprod, fround_of_pos _ (by norm_num) (by norm_num),
    froundPos_eval _ 10 _ he hm]
  norm_num

/-- Five is exactly representable: rounding is the identity on it. -/
theorem fround_5 : fround (5 : ℚ) = 5 := by
  have hfl : ⌊(5 : ℚ)⌋₊ = 5 := by
    rw [Nat.floor_eq_iff (by norm_num)]; norm_num
  have he : qExp2 (5 : ℚ) = 2 := by
    rw [qExp2_of_natFloor _ 5 (by norm_num) hfl]
    norm_num [show floorLog2 5 = 2 from by decide]
  have harg : (5 : ℚ) * 2 ^ ((52 : ℤ) - 2) = 5629499534213120 := by
    norm_num
  have hm : roundHalfEven ((5 : ℚ) * 2 ^ ((52 : ℤ) - 2)) = 5629499534213120 := by
    rw [harg]
    exact roundHalfEven_of_le_of_lt _ _ (by norm_num) (by norm_num)
  rw [fround_of_pos _ (by norm_num) (by norm_num), froundPos_eval _ 2 _ he hm]
  norm_num

/-- Five times 100 is 500 exactly, also after binary64 rounding. -/
theorem fmul_5_100 : fmul (5 : ℚ) 100 = 500 := by
  have hfl : ⌊(500 : ℚ)⌋₊ = 500 := by
    rw [Nat.floor_eq_iff (by norm_num)]; norm_num
  have he : qExp2 (500 : ℚ) = 8 := by
    rw [qExp2_of_natFloor _ 500 (by norm_num) hfl]
    norm_num [show floorLog2 500 = 8 from by decide]
  have harg : (500 : ℚ) * 2 ^ ((52 : ℤ) - 8) = 8796093022208000 := by
    norm_num
  have hm : roundHalfEven ((500 : ℚ) * 2 ^ ((52 : ℤ) - 8)) = 8796093022208000 := by
    rw [harg]
    exact roundHalfEven_of_le_of_lt _ _ (by norm_num) (by norm_num)
  have h : (5 : ℚ) * 100 = 500 := by norm_num
  rw [fmul, h, fround_of_pos _ (by norm_num) (by norm_num), froundPos_eval _ 8 _ he hm]
  norm_num

/-! Section: JavaScript `Number(string)` coercion (decimal fragment)

`z.coerce.number()` (lines 23–25 of `actions.ts`) applies JavaScript's
`Number()` to the raw form value.  We model the decimal fragment of that
coercion: optional surrounding whitespace, an optional sign, decimal digits
with an optional fractional part.  (Exponent, hexadecimal and `Infinity`
forms are not modelled; no input considered here uses them.)  An empty or
all-whitespace string coerces to 0, `Number(null)` is 0, and any other
unparsable string is NaN. -/

/-- A decimal digit character. -/
def digit? (c : Char) : Bool :=
  48 ≤ c.toNat && c.toNat ≤ 57

/-- JavaScript whitespace characters stripped by `Number()` (the common ones). -/
def jsSpace? (c : Char) : Bool :=
  c == ' ' || c == '\t' || c == '\n' || c == '\r'

/-- Numeric value of a digit string, most significant digit first. -/
def digitsVal (cs : List Char) : ℕ :=
  cs.foldl (fun a c => 10 * a + (c.toNat - 48)) 0

/-- Outcome of scanning a decimal literal: NaN, or sign / integer part /
fraction digits / fraction length. -/
inductive ScannedNum
  | nan
  | num (neg : Bool) (ip fp : ℕ) (fpLen : ℕ)
deriving DecidableEq

/-- Scan an unsigned decimal literal `digits [. digits]`. -/
def scanDecCore (neg : Bool) (cs : List Char) : ScannedNum :=
  match cs.dropWhile digit? with
  | [] =>
    if cs.takeWhile digit? = [] then .nan
    else .num neg (digitsVal (cs.takeWhile digit?)) 0 0
  | '.' :: rest =>
    if rest.dropWhile digit? = [] then
      if cs.takeWhile digit? = [] ∧ rest.takeWhile digit? = [] then .nan
      else .num neg (digitsVal (cs.takeWhile digit?))
        (digitsVal (rest.takeWhile digit?)) (rest.takeWhile digit?).length
    else .nan
  | _ => .nan

/-- Scan a string the way `Number()` reads it: trim, empty means 0, optional
sign, then a decimal literal. -/
def scanDec (s : String) : ScannedNum :=
  match ((s.toList.dropWhile jsSpace?).reverse.dropWhile jsSpace?).reverse with
  | [] => .num false 0 0 0
  | '-' :: rest => scanDecCore true rest
  | '+' :: rest => scanDecCore false rest
  | cs => scanDecCore false cs

/-- Exact rational value of a scanned number (`none` is NaN). -/
def scannedVal : ScannedNum → Option ℚ
  | .nan => none
  | .num neg ip fp fpLen =>
    some ((if neg then -1 else 1) * ((ip : ℚ) + (fp : ℚ) / 10 ^ fpLen))

/-- Model of `Number(s)` for a string `s`: the scanned exact value, rounded to the
nearest binary64 (`none` is NaN). -/
def jsNumber (s : String) : Option ℚ :=
  (scannedVal (scanDec s)).map fround

/-- A value read from `FormData.get`: a string when the field is present,
`null` when it is absent. -/
inductive FormValue
  | str (s : String)
  | null
deriving DecidableEq

/-- Model of `Number(x)` on a form value: `Number(null)` is 0. -/
def jsToNumber : FormValue → Option ℚ
  | .null => some 0
  | .str s => jsNumber s

/-! Section: The Zod schema (`FormSchema`, lines 13–32 of `actions.ts`)

Each field is modelled as a function from the raw form value to either the
parsed value or the list of zod issue messages for that field. -/

/-- Invoice status enum (`z.enum(['pending', 'paid'])`). -/
inductive Status
  | pending
  | paid
deriving DecidableEq

/-- The literal string of a status value. -/
def statusString : Status → String
  | .pending => "pending"
  | .paid => "paid"

/-- Field `customerId: z.string({invalid_type_error: 'Please select a customer.'})`:
any string is accepted; a missing field (`null`) is an invalid type. -/
def parseCustomerId : FormValue → Except (List String) String
  | .str s => .ok s
  | .null => .error ["Please select a customer."]

/-- Field `amount: z.coerce.number().gt(0, ...)`: coerce with `Number()`; NaN is a
zod invalid-type issue; otherwise the coerced double must exceed 0. -/
def parseAmount (v : FormValue) : Except (List String) ℚ :=
  match jsToNumber v with
  | none => .error ["Expected number, received nan"]
  | some d =>
    if 0 < d then .ok d
    else .error ["Please enter an amount greater than $0."]

/-- Field `status: z.enum(['pending', 'paid'], {invalid_type_error: ...})`: a
missing field is an invalid type; a string outside the enum is an
invalid-enum-value issue with zod's default message. -/
def parseStatus : FormValue → Except (List String) Status
  | .null => .error ["Please select an invoice status."]
  | .str s =>
    if s = "pending" then .ok .pending
    else if s = "paid" then .ok .paid
    else .error
      ["Invalid enum value. Expected 'pending' | 'paid', received '" ++ s ++ "'"]

/-- Field `date: z.string()`: any string is accepted with no further validation; a
missing field is an invalid type with zod's default message. -/
def parseDate : FormValue → Except (List String) String
  | .str s => .ok s
  | .null => .error ["Expected string, received null"]

/-- Field `id: z.string()` (identical shape to `date`). -/
def parseId : FormValue → Except (List String) String
  | .str s => .ok s
  | .null => .error ["Expected string, received null"]

/-- Shape of `flatten().fieldErrors` for the fields of the omitted schema: the messages
of each failing field; an empty list means the field key is absent from the
error map. -/
structure FieldErrors where
  customerId : List String
  amount : List String
  status : List String
deriving DecidableEq

/-- The data produced by a successful parse of the omitted schema. -/
structure InvoiceData where
  customerId : String
  amount : ℚ
  status : Status
deriving DecidableEq

/-- The error list of a per-field outcome (empty when the field parsed). -/
def errList {α : Type} : Except (List String) α → List String
  | .error e => e
  | .ok _ => []

/-- Model of `CreateInvoice.safeParse` where
`CreateInvoice = FormSchema.omit({id: true, date: true})` (line 45): all three
remaining fields must parse, otherwise the full per-field error map is
returned. -/
def safeParseCreate (c a s : FormValue) : Except FieldErrors InvoiceData :=
  match parseCustomerId c, parseAmount a, parseStatus s with
  | .ok cid, .ok amt, .ok st => .ok ⟨cid, amt, st⟩
  | rc, ra, rs => .error ⟨errList rc, errList ra, errList rs⟩

/-- Model of `UpdateInvoice.safeParse`; `UpdateInvoice` (line 105) is the same
`FormSchema.omit({id: true, date: true})` schema. -/
def safeParseUpdate : FormValue → FormValue → FormValue → Except FieldErrors InvoiceData :=
  safeParseCreate

/-! Section: The server actions (`actions.ts`)

The external collaborators of the actions are made explicit parameters:
- the SQL interface becomes a statement value (`DbOp`) plus a success
  predicate `db : DbOp → Bool` (the original returns success or throws);
- `revalidatePath` and `redirect` become entries of an effect trace;
- the current date string `new Date().toISOString().split('T')[0]` becomes
  the parameter `today`.
Each action returns its result value together with the trace of storage
statements issued and cache paths revalidated. -/

/-- A parameterized SQL statement issued by the actions. -/
inductive DbOp
  | insertInvoice (customerId : String) (amount : ℚ) (status date : String)
  | updateInvoice (id customerId : String) (amount : ℚ) (status : String)
  | deleteInvoice (id : String)
deriving DecidableEq

/-- Trace of the external effects an action performed. -/
structure Effects where
  dbOps : List DbOp
  revalidated : List String
deriving DecidableEq

/-- The value an action produces: a validation-error state, a message-only
state, or a redirect (which in the original terminates the handler). -/
inductive ActionResult
  | fieldErrors (errors : FieldErrors) (message : String)
  | message (message : String)
  | redirected (path : String)
deriving DecidableEq

/-- A browser form submission: field name / value pairs. -/
abbrev FormData := List (String × String)

/-- Model of `formData.get(k)`: the first value bound to `k`, or `null`. -/
def formGet (fd : FormData) (k : String) : FormValue :=
  match fd.find? (fun p => p.1 == k) with
  | some p => .str p.2
  | none => .null

/-- Model of `createInvoice` (lines 47–88): validate with `CreateInvoice.safeParse`;
on failure return the field errors and message with no storage access;
otherwise scale the amount by 100 (binary64 multiplication), derive the date,
insert, and on storage failure return the database-error message; on success
revalidate and redirect to the invoice listing. -/
def createInvoice (today : String) (db : DbOp → Bool) (fd : FormData) :
    ActionResult × Effects :=
  match safeParseCreate (formGet fd "customerId") (formGet fd "amount")
      (formGet fd "status") with
  | .error e => (.fieldErrors e "Missing Fields. Failed to Create Invoice.", ⟨[], []⟩)
  | .ok d =>
    if db (.insertInvoice d.customerId (fmul d.amount 100) (statusString d.status) today) then
      (.redirected "/dashboard/invoices",
        ⟨[.insertInvoice d.customerId (fmul d.amount 100) (statusString d.status) today],
          ["/dashboard/invoices"]⟩)
    else
      (.message "Database Error: Failed to Create Invoice.",
        ⟨[.insertInvoice d.customerId (fmul d.amount 100) (statusString d.status) today], []⟩)

/-- Model of `updateInvoice` (lines 109–142): same validation; on success issue the
UPDATE statement keyed by `id`; note the action derives no date and reads no
date. -/
def updateInvoice (id : String) (db : DbOp → Bool) (fd : FormData) :
    ActionResult × Effects :=
  match safeParseUpdate (formGet fd "customerId") (formGet fd "amount")
      (formGet fd "status") with
  | .error e => (.fieldErrors e "Missing Fields. Failed to Update Invoice.", ⟨[], []⟩)
  | .ok d =>
    if db (.updateInvoice id d.customerId (fmul d.amount 100) (statusString d.status)) then
      (.redirected "/dashboard/invoices",
        ⟨[.updateInvoice id d.customerId (fmul d.amount 100) (statusString d.status)],
          ["/dashboard/invoices"]⟩)
    else
      (.message "Database Error: Failed to Update Invoice.",
        ⟨[.updateInvoice id d.customerId (fmul d.amount 100) (statusString d.status)], []⟩)

/-- Model of `deleteInvoice` (lines 147–160): the body begins with
`throw new Error('Failed to Delete Invoice')`, so the function always throws
and the try/catch block after it (marked "unreachable code block" in the
source) never runs.  A thrown error is the `Except.error` case. -/
def deleteInvoice (_db : DbOp → Bool) (_id : String) :
    Except String (ActionResult × Effects) :=
  .error "Failed to Delete Invoice"

/-- The dead try/catch block of `deleteInvoice` (lines 151–159), modelled on
its own: issue the DELETE, revalidate and report `Deleted Invoice.` on
success, return the database-error message on failure.  The spec treats this
block as the intended contract of the delete operation. -/
def deleteInvoiceDeadCode (db : DbOp → Bool) (id : String) :
    ActionResult × Effects :=
  if db (.deleteInvoice id) then
    (.message "Deleted Invoice.", ⟨[.deleteInvoice id], ["/dashboard/invoices"]⟩)
  else
    (.message "Database Error: Failed to Delete Invoice.", ⟨[.deleteInvoice id], []⟩)

/-- Outcome of the external `signIn('credentials', formData)` call:
success, a thrown `AuthError` carrying its `type` string, or any other
thrown error. -/
inductive SignInOutcome
  | success
  | authError (errType : String)
  | thrown (err : String)

/-- Model of `authenticate` (lines 163–180): an `AuthError` of type
`CredentialsSignin` maps to `Invalid credentials.`, any other `AuthError`
to `Something went wrong.`, and a non-`AuthError` is re-thrown
(`Except.error`); on success the action returns `undefined` (`none`). -/
def authenticate : SignInOutcome → Except String (Option String)
  | .success => .ok none
  | .authError t =>
    .ok (some (if t = "CredentialsSignin" then "Invalid credentials." else "Something went wrong."))
  | .thrown e => .error e

/-! Section: The session authorizer (`src/auth.config.ts`, lines 10–20) -/

/-- Character-list version of `String.prototype.startsWith` (kept
kernel-evaluable). -/
def leadsList : List Char → List Char → Bool
  | [], _ => true
  | _ :: _, [] => false
  | c :: cs, d :: ds => c == d && leadsList cs ds

/-- Model of `s.startsWith(p)`. -/
def startsWithStr (s p : String) : Bool :=
  leadsList p.toList s.toList

/-- The authorizer's verdict: `true` (allow), `false` (deny, mapped to a
login redirect by the caller), or `Response.redirect` to a path. -/
inductive Decision
  | allow
  | deny
  | redirectTo (path : String)
deriving DecidableEq

/-- The `authorized` callback: on a `/dashboard` path allow exactly the
logged-in users; elsewhere redirect logged-in users to `/dashboard` and allow
everyone else. -/
def authorized (isLoggedIn : Bool) (pathname : String) : Decision :=
  if startsWithStr pathname "/dashboard" then
    if isLoggedIn then .allow else .deny
  else if isLoggedIn then .redirectTo "/dashboard"
  else .allow

/-! Section: Storage semantics of the UPDATE statement

The `invoices` table is a list of rows; the UPDATE issued by `updateInvoice`
(lines 131–135) sets `customer_id`, `amount` and `status` on every row whose
`id` matches and touches nothing else. -/

/-- A stored invoice row. -/
structure Invoice where
  id : String
  customer_id : String
  amount : ℚ
  status : String
  date : String
deriving DecidableEq

/-- Statement `UPDATE invoices SET customer_id = c, amount = a, status = s WHERE id = i`. -/
def applyUpdate (tbl : List Invoice) (i c : String) (a : ℚ) (s : String) :
    List Invoice :=
  tbl.map fun r =>
    if r.id = i then { r with customer_id := c, amount := a, status := s } else r

/-! Section: Sample inputs and evaluation lemmas -/

/-- A storage layer on which every statement succeeds. -/
def dbYes : DbOp → Bool := fun _ => true

/-- A storage layer on which every statement fails. -/
def dbNo : DbOp → Bool := fun _ => false

/-- A valid form submission (note: no `date` field). -/
def fdSample : FormData := [("customerId", "c1"), ("amount", "5"), ("status", "paid")]

theorem jsNumber_5 : jsNumber "5" = some 5 := by
  have h : scanDec "5" = .num false 5 0 0 := by decide
  rw [jsNumber, h]
  simp only [scannedVal, Option.map]
  norm_num [fround_5]

theorem jsNumber_19_99 : jsNumber "19.99" = some (5626684784446013 / 2 ^ 48) := by
  have h : scanDec "19.99" = .num false 19 99 2 := by decide
  rw [jsNumber, h]
  simp only [scannedVal, Option.map]
  norm_num [fround_19_99]

theorem jsNumber_empty : jsNumber "" = some 0 := by
  have h : scanDec "" = .num false 0 0 0 := by decide
  rw [jsNumber, h]
  simp only [scannedVal, Option.map]
  norm_num [fround_zero]

theorem jsNumber_abc : jsNumber "abc" = none := by
  have h : scanDec "abc" = .nan := by decide
  rw [jsNumber, h]
  rfl

theorem parseAmount_5 : parseAmount (.str "5") = .ok 5 := by
  simp only [parseAmount, jsToNumber, jsNumber_5]
  norm_num

theorem parseAmount_19_99 : parseAmount (.str "19.99") = .ok (5626684784446013 / 2 ^ 48) := by
  simp only [parseAmount, jsToNumber, jsNumber_19_99]
  norm_num

theorem parseAmount_null : parseAmount .null = .error ["Please enter an amount greater than $0."] := by
  simp only [parseAmount, jsToNumber]
  norm_num

theorem safeParse_sample :
    safeParseCreate (.str "c1") (.str "5") (.str "paid") = .ok ⟨"c1", 5, .paid⟩ := by
  have hc : parseCustomerId (.str "c1") = .ok "c1" := rfl
  have hs : parseStatus (.str "paid") = .ok .paid := rfl
  simp only [safeParseCreate, hc, parseAmount_5, hs]

theorem safeParse_drift :
    safeParseCreate (.str "c1") (.str "19.99") (.str "paid")
      = .ok ⟨"c1", 5626684784446013 / 2 ^ 48, .paid⟩ := by
  have hc : parseCustomerId (.str "c1") = .ok "c1" := rfl
  have hs : parseStatus (.str "paid") = .ok .paid := rfl
  simp only [safeParseCreate, hc, parseAmount_19_99, hs]

theorem safeParse_empty :
    safeParseCreate (formGet [] "customerId") (formGet [] "amount") (formGet [] "status")
      = .error ⟨["Please select a customer."],
          ["Please enter an amount greater than $0."],
          ["Please select an invoice status."]⟩ := by
  have hc : parseCustomerId (formGet [] "customerId") = .error ["Please select a customer."] := rfl
  have ha : parseAmount (formGet [] "amount") = .error ["Please enter an amount greater than $0."] :=
    parseAmount_null
  have hs : parseStatus (formGet [] "status") = .error ["Please select an invoice status."] := rfl
  simp only [safeParseCreate, hc, ha, hs]
  rfl

/-- The two actions read only the three validated fields, so form data
agreeing on those fields is indistinguishable to `createInvoice`. -/
theorem createInvoice_agree (today : String) (db : DbOp → Bool) (fd fd' : FormData)
    (h1 : formGet fd' "customerId" = formGet fd "customerId")
    (h2 : formGet fd' "amount" = formGet fd "amount")
    (h3 : formGet fd' "status" = formGet fd "status") :
    createInvoice today db fd' = createInvoice today db fd := by
  simp only [createInvoice, h1, h2, h3]

/-- Same frame fact for `updateInvoice`. -/
theorem updateInvoice_agree (id : String) (db : DbOp → Bool) (fd fd' : FormData)
    (h1 : formGet fd' "customerId" = formGet fd "customerId")
    (h2 : formGet fd' "amount" = formGet fd "amount")
    (h3 : formGet fd' "status" = formGet fd "status") :
    updateInvoice id db fd' = updateInvoice id db fd := by
  simp only [updateInvoice, h1, h2, h3]

/-! Section: The claims -/

/-- C1: the claim asserts `amountCents = round(amount * 100)` exactly, with
19.99 yielding 1999.  The code computes `amount * 100` in binary64 with no
rounding step (line 68), so for the form amount `"19.99"` the inserted amount
is `8791694975696895 / 2^42 = 1998.9999999999998…`, which is not 1999 — the
claim (and the code's own comment "convert from USD to cents to avoid
floating point errors") describe the intent, the code drops the rounding. -/
theorem createInvoice_amount_drift :
    (createInvoice "2024-01-01" dbYes
        [("customerId", "c1"), ("amount", "19.99"), ("status", "paid")]).2.dbOps
      = [.insertInvoice "c1" (8791694975696895 / 2 ^ 42) "paid" "2024-01-01"]
    ∧ ((8791694975696895 : ℚ) / 2 ^ 42) ≠ 1999 := by
  constructor
  · have h1 : formGet [("customerId", "c1"), ("amount", "19.99"), ("status", "paid")]
        "customerId" = .str "c1" := rfl
    have h2 : formGet [("customerId", "c1"), ("amount", "19.99"), ("status", "paid")]
        "amount" = .str "19.99" := rfl
    have h3 : formGet [("customerId", "c1"), ("amount", "19.99"), ("status", "paid")]
        "status" = .str "paid" := rfl
    have hp := safeParse_drift
    simp only [createInvoice, h1, h2, h3, hp, dbYes, if_true]
    simp [fmul_19_99_100, statusString]
  · norm_num

/-- C2: the claim says `deleteInvoice` removes the matched row and returns a
message object in both outcomes.  The code instead begins with
`throw new Error('Failed to Delete Invoice')`, so it always throws and never
reaches storage, whatever the id and whatever the storage layer would do. -/
theorem deleteInvoice_always_throws :
    ∀ (db : DbOp → Bool) (id : String),
    deleteInvoice db id = .error "Failed to Delete Invoice" :=
  fun _ _ => rfl

/-- C3: if any of the three validated fields fails, both actions return the
full per-field error map with the respective "Missing Fields" message, and
issue no storage statement. -/
theorem validation_all_or_nothing :
    ∀ (today : String) (db : DbOp → Bool) (id : String) (fd : FormData) (E : FieldErrors),
    safeParseCreate (formGet fd "customerId") (formGet fd "amount") (formGet fd "status")
      = .error E →
    createInvoice today db fd
      = (.fieldErrors E "Missing Fields. Failed to Create Invoice.", ⟨[], []⟩)
    ∧ updateInvoice id db fd
      = (.fieldErrors E "Missing Fields. Failed to Update Invoice.", ⟨[], []⟩)
    ∧ E = ⟨errList (parseCustomerId (formGet fd "customerId")),
           errList (parseAmount (formGet fd "amount")),
           errList (parseStatus (formGet fd "status"))⟩ := by
  intro today db id fd E h
  refine ⟨?_, ?_, ?_⟩
  · simp only [createInvoice, h]
  · simp only [updateInvoice, safeParseUpdate, h]
  · rcases hc : parseCustomerId (formGet fd "customerId") with ec | vc <;>
      rcases ha : parseAmount (formGet fd "amount") with ea | va <;>
      rcases hs : parseStatus (formGet fd "status") with es | vs <;>
      simp only [safeParseCreate, hc, ha, hs, Except.error.injEq, reduceCtorEq] at h <;>
      simp only [← h, errList]

/-- Witness for C3: the empty submission fails all three fields, both actions
return the full error map, and no storage statement is in the trace. -/
theorem validation_all_or_nothing_witness :
    createInvoice "2024-06-01" dbYes []
      = (.fieldErrors ⟨["Please select a customer."],
            ["Please enter an amount greater than $0."],
            ["Please select an invoice status."]⟩
          "Missing Fields. Failed to Create Invoice.", ⟨[], []⟩)
    ∧ updateInvoice "a1" dbYes []
      = (.fieldErrors ⟨["Please select a customer."],
            ["Please enter an amount greater than $0."],
            ["Please select an invoice status."]⟩
          "Missing Fields. Failed to Update Invoice.", ⟨[], []⟩) := by
  obtain ⟨h1, h2, -⟩ :=
    validation_all_or_nothing "2024-06-01" dbYes "a1" [] _ safeParse_empty
  exact ⟨h1, h2⟩

/-- C4: on a path under `/dashboard` the authorizer allows exactly the
authenticated sessions and denies the rest; elsewhere it redirects
authenticated sessions to `/dashboard` and allows everything else. -/
theorem authorized_decision :
    ∀ (b : Bool) (p : String),
    (startsWithStr p "/dashboard" = true →
      (authorized b p = .allow ↔ b = true) ∧ (b = false → authorized b p = .deny))
    ∧ (startsWithStr p "/dashboard" = false → b = true →
        authorized b p = .redirectTo "/dashboard")
    ∧ (startsWithStr p "/dashboard" = false → b = false → authorized b p = .allow) := by
  intro b p
  refine ⟨fun h => ?_, fun h hb => ?_, fun h hb => ?_⟩
  · cases b <;> simp [authorized, h]
  · subst hb; simp [authorized, h]
  · subst hb; simp [authorized, h]

/-- Witness for C4: an authenticated session requesting `/login` is
redirected to the dashboard home. -/
theorem authorized_decision_witness :
    startsWithStr "/login" "/dashboard" = false
    ∧ authorized true "/login" = .redirectTo "/dashboard" :=
  ⟨by decide, (authorized_decision true "/login").2.1 (by decide) rfl⟩

/-- C5: when the insert statement fails on a validated input, `createInvoice`
returns exactly the database-error message, revalidates no path, and does not
redirect (the result is the `message` state, not `redirected`). -/
theorem createInvoice_storage_failure :
    ∀ (today : String) (db : DbOp → Bool) (fd : FormData) (d : InvoiceData),
    safeParseCreate (formGet fd "customerId") (formGet fd "amount") (formGet fd "status")
      = .ok d →
    db (.insertInvoice d.customerId (fmul d.amount 100) (statusString d.status) today)
      = false →
    createInvoice today db fd
      = (.message "Database Error: Failed to Create Invoice.",
         ⟨[.insertInvoice d.customerId (fmul d.amount 100) (statusString d.status) today],
           []⟩) := by
  intro today db fd d h hdb
  simp only [createInvoice, h, hdb]
  simp

/-- Witness for C5: a concrete valid submission against a failing storage
layer. -/
theorem createInvoice_storage_failure_witness :
    createInvoice "2024-06-01" dbNo fdSample
      = (.message "Database Error: Failed to Create Invoice.",
         ⟨[.insertInvoice "c1" 500 "paid" "2024-06-01"], []⟩) := by
  have hp : safeParseCreate (formGet fdSample "customerId") (formGet fdSample "amount")
      (formGet fdSample "status") = .ok ⟨"c1", 5, .paid⟩ := by
    have h1 : formGet fdSample "customerId" = .str "c1" := rfl
    have h2 : formGet fdSample "amount" = .str "5" := rfl
    have h3 : formGet fdSample "status" = .str "paid" := rfl
    rw [h1, h2, h3]; exact safeParse_sample
  have h := createInvoice_storage_failure "2024-06-01" dbNo fdSample ⟨"c1", 5, .paid⟩ hp rfl
  rw [h]
  simp [fmul_5_100, statusString]

/-- C6 counterexample: the claim says every amount string that fails numeric
coercion is treated as 0 and surfaces as the greater-than-zero error.  For
`"abc"`, `Number("abc")` is NaN, and the validator reports zod's invalid-type
issue, not the greater-than-zero error. -/
theorem amount_nan_counterexample :
    safeParseCreate (.str "c1") (.str "abc") (.str "paid")
      = .error ⟨[], ["Expected number, received nan"], []⟩
    ∧ (["Expected number, received nan"]
        ≠ ["Please enter an amount greater than $0."]) := by
  constructor
  · have ha : parseAmount (.str "abc") = .error ["Expected number, received nan"] := by
      simp only [parseAmount, jsToNumber, jsNumber_abc]
    have hc : parseCustomerId (.str "c1") = .ok "c1" := rfl
    have hs : parseStatus (.str "paid") = .ok .paid := rfl
    simp only [safeParseCreate, hc, ha, hs]
    rfl
  · decide

/-- C6 amended: a form value that coerces to the number 0 (the empty string,
an all-whitespace string, or a missing field, since `Number(null)` is 0)
fails with the greater-than-zero error; a string whose coercion is NaN fails
with zod's invalid-type issue instead. -/
theorem amount_coercion_behavior :
    ∀ (v : FormValue) (s : String),
    (jsToNumber v = some 0 →
      parseAmount v = .error ["Please enter an amount greater than $0."])
    ∧ (jsNumber s = none →
      parseAmount (.str s) = .error ["Expected number, received nan"])
    ∧ jsToNumber (.str "") = some 0
    ∧ jsToNumber .null = some 0 := by
  intro v s
  refine ⟨fun h => ?_, fun h => ?_, ?_, rfl⟩
  · simp only [parseAmount, h]
    norm_num
  · simp only [parseAmount, jsToNumber, h]
  · simp only [jsToNumber, jsNumber_empty]

/-- Witness for C6: the empty amount surfaces as the greater-than-zero error,
while `"abc"` surfaces as the invalid-type issue. -/
theorem amount_coercion_behavior_witness :
    parseAmount (.str "") = .error ["Please enter an amount greater than $0."]
    ∧ parseAmount (.str "abc") = .error ["Expected number, received nan"] := by
  obtain ⟨h1, h2, h3, -⟩ := amount_coercion_behavior (.str "") "abc"
  exact ⟨h1 h3, h2 jsNumber_abc⟩

/-- C7: a `CredentialsSignin` auth failure maps to "Invalid credentials.",
any other auth failure maps to "Something went wrong.", a non-auth error is
re-thrown unchanged, and success returns `undefined`. -/
theorem authenticate_error_mapping :
    ∀ (t e : String),
    authenticate .success = .ok none
    ∧ authenticate (.authError "CredentialsSignin") = .ok (some "Invalid credentials.")
    ∧ (t ≠ "CredentialsSignin" →
        authenticate (.authError t) = .ok (some "Something went wrong."))
    ∧ authenticate (.thrown e) = .error e := by
  intro t e
  exact ⟨rfl, rfl, fun h => by simp [authenticate, h], rfl⟩

/-- Witness for C7: a non-credentials auth failure maps to the generic
message. -/
theorem authenticate_error_mapping_witness :
    authenticate (.authError "OAuthSignInError") = .ok (some "Something went wrong.") :=
  (authenticate_error_mapping "OAuthSignInError" "boom").2.2.1 (by decide)

/-- C8 counterexample: the claim says the validator rejects form input whose
`date` is absent.  A submission with no `date` field at all passes validation
and completes the insert-revalidate-redirect path, because the schemas
actually applied to form input omit `date`. -/
theorem missing_date_accepted :
    createInvoice "2024-06-01" dbYes fdSample
      = (.redirected "/dashboard/invoices",
         ⟨[.insertInvoice "c1" 500 "paid" "2024-06-01"], ["/dashboard/invoices"]⟩) := by
  have hp : safeParseCreate (formGet fdSample "customerId") (formGet fdSample "amount")
      (formGet fdSample "status") = .ok ⟨"c1", 5, .paid⟩ := by
    have h1 : formGet fdSample "customerId" = .str "c1" := rfl
    have h2 : formGet fdSample "amount" = .str "5" := rfl
    have h3 : formGet fdSample "status" = .str "paid" := rfl
    rw [h1, h2, h3]; exact safeParse_sample
  simp only [createInvoice, hp, dbYes, if_true]
  simp [fmul_5_100, statusString]

/-- C8 amended: `FormSchema` itself declares `date` as a required string with
no further validation, but `CreateInvoice` and `UpdateInvoice` omit `date`,
so the validation applied to form submissions never reads the `date` field
and cannot reject it. -/
theorem date_field_behavior :
    ∀ (s today id : String) (db : DbOp → Bool) (fd fd' : FormData),
    parseDate (.str s) = .ok s
    ∧ parseDate .null = .error ["Expected string, received null"]
    ∧ (formGet fd' "customerId" = formGet fd "customerId" →
       formGet fd' "amount" = formGet fd "amount" →
       formGet fd' "status" = formGet fd "status" →
       createInvoice today db fd' = createInvoice today db fd
       ∧ updateInvoice id db fd' = updateInvoice id db fd) :=
  fun _ today id db fd fd' =>
    ⟨rfl, rfl, fun h1 h2 h3 =>
      ⟨createInvoice_agree today db fd fd' h1 h2 h3,
       updateInvoice_agree id db fd fd' h1 h2 h3⟩⟩

/-- Witness for C8: adding a `date` entry to a submission changes neither
action's outcome. -/
theorem date_field_behavior_witness :
    createInvoice "2024-06-01" dbYes (fdSample ++ [("date", "1900-01-01")])
      = createInvoice "2024-06-01" dbYes fdSample
    ∧ updateInvoice "a1" dbYes (fdSample ++ [("date", "1900-01-01")])
      = updateInvoice "a1" dbYes fdSample :=
  (date_field_behavior "x" "2024-06-01" "a1" dbYes fdSample
      (fdSample ++ [("date", "1900-01-01")])).2.2
    (by decide) (by decide) (by decide)

/-- C9: the UPDATE statement leaves `id` and `date` of every row unchanged,
leaves non-matching rows entirely unchanged, rewrites exactly the
`customer_id`, `amount` and `status` of matching rows, and for a validated
input `updateInvoice` issues exactly that statement. -/
theorem updateInvoice_frame :
    ∀ (tbl : List Invoice) (i c : String) (a : ℚ) (s : String),
    ((applyUpdate tbl i c a s).map (fun r => (r.id, r.date))
        = tbl.map (fun r => (r.id, r.date)))
    ∧ (∀ r : Invoice, r ∈ tbl → r.id ≠ i → r ∈ applyUpdate tbl i c a s)
    ∧ (∀ r : Invoice, r ∈ tbl → r.id = i →
        { r with customer_id := c, amount := a, status := s } ∈ applyUpdate tbl i c a s)
    ∧ (∀ (id : String) (db : DbOp → Bool) (fd : FormData) (d : InvoiceData),
        safeParseUpdate (formGet fd "customerId") (formGet fd "amount")
            (formGet fd "status") = .ok d →
        (updateInvoice id db fd).2.dbOps
          = [.updateInvoice id d.customerId (fmul d.amount 100) (statusString d.status)]) := by
  intro tbl i c a s
  refine ⟨?_, ?_, ?_, ?_⟩
  · rw [applyUpdate, List.map_map]
    apply List.map_congr_left
    intro r _
    by_cases h : r.id = i <;> simp [h]
  · intro r hr hne
    have := List.mem_map_of_mem
      (fun r' : Invoice =>
        if r'.id = i then { r' with customer_id := c, amount := a, status := s } else r') hr
    simpa [applyUpdate, hne] using this
  · intro r hr hri
    have := List.mem_map_of_mem
      (fun r' : Invoice =>
        if r'.id = i then { r' with customer_id := c, amount := a, status := s } else r') hr
    simpa [applyUpdate, hri] using this
  · intro id db fd d h
    rw [safeParseUpdate] at h
    simp only [updateInvoice, safeParseUpdate, h]
    split <;> rfl

/-- Witness for C9: a two-row table updated at `"a1"` keeps both `(id, date)`
pairs, keeps the `"b2"` row untouched, and the action's trace holds exactly
the UPDATE statement. -/
theorem updateInvoice_frame_witness :
    (applyUpdate [⟨"a1", "c0", 100, "pending", "2023-01-01"⟩,
        ⟨"b2", "c9", 7, "paid", "2022-05-05"⟩] "a1" "c1" 500 "paid").map
      (fun r => (r.id, r.date)) = [("a1", "2023-01-01"), ("b2", "2022-05-05")]
    ∧ (⟨"b2", "c9", 7, "paid", "2022-05-05"⟩ : Invoice)
        ∈ applyUpdate [⟨"a1", "c0", 100, "pending", "2023-01-01"⟩,
            ⟨"b2", "c9", 7, "paid", "2022-05-05"⟩] "a1" "c1" 500 "paid"
    ∧ (updateInvoice "a1" dbYes fdSample).2.dbOps
        = [.updateInvoice "a1" "c1" 500 "paid"] := by
  obtain ⟨h1, h2, -, h4⟩ := updateInvoice_frame
    [⟨"a1", "c0", 100, "pending", "2023-01-01"⟩, ⟨"b2", "c9", 7, "paid", "2022-05-05"⟩]
    "a1" "c1" 500 "paid"
  refine ⟨?_, h2 _ (by simp) (by simp), ?_⟩
  · rw [h1]; rfl
  · have hp : safeParseUpdate (formGet fdSample "customerId") (formGet fdSample "amount")
        (formGet fdSample "status") = .ok ⟨"c1", 5, .paid⟩ := by
      have h1' : formGet fdSample "customerId" = .str "c1" := rfl
      have h2' : formGet fdSample "amount" = .str "5" := rfl
      have h3' : formGet fdSample "status" = .str "paid" := rfl
      rw [safeParseUpdate, h1', h2', h3']; exact safeParse_sample
    have := h4 "a1" dbYes fdSample ⟨"c1", 5, .paid⟩ hp
    rw [this]
    simp [fmul_5_100, statusString]

/-- C10: on a validated submission `createInvoice` inserts with the derived
current-date string (the `today` parameter models
`new Date().toISOString().split('T')[0]`), and the outcome depends only on
the `customerId`, `amount` and `status` fields — a `date` field in the form
is never read. -/
theorem createInvoice_date_assignment :
    ∀ (today : String) (db : DbOp → Bool) (fd : FormData),
    (∀ d : InvoiceData,
      safeParseCreate (formGet fd "customerId") (formGet fd "amount")
          (formGet fd "status") = .ok d →
      (createInvoice today db fd).2.dbOps
        = [.insertInvoice d.customerId (fmul d.amount 100) (statusString d.status) today])
    ∧ (∀ fd' : FormData,
      formGet fd' "customerId" = formGet fd "customerId" →
      formGet fd' "amount" = formGet fd "amount" →
      formGet fd' "status" = formGet fd "status" →
      createInvoice today db fd' = createInvoice today db fd) := by
  intro today db fd
  constructor
  · intro d h
    simp only [createInvoice, h]
    split <;> rfl
  · intro fd' h1 h2 h3
    exact createInvoice_agree today db fd fd' h1 h2 h3

/-- Witness for C10: the insert carries the supplied current date even though
the form has no `date`, and adding one changes nothing. -/
theorem createInvoice_date_assignment_witness :
    (createInvoice "2024-06-01" dbYes fdSample).2.dbOps
      = [.insertInvoice "c1" 500 "paid" "2024-06-01"]
    ∧ createInvoice "2024-06-01" dbYes (fdSample ++ [("date", "1900-01-01")])
      = createInvoice "2024-06-01" dbYes fdSample := by
  obtain ⟨hA, hB⟩ := createInvoice_date_assignment "2024-06-01" dbYes fdSample
  refine ⟨?_, hB _ (by decide) (by decide) (by decide)⟩
  have hp : safeParseCreate (formGet fdSample "customerId") (formGet fdSample "amount")
      (formGet fdSample "status") = .ok ⟨"c1", 5, .paid⟩ := by
    have h1 : formGet fdSample "customerId" = .str "c1" := rfl
    have h2 : formGet fdSample "amount" = .str "5" := rfl
    have h3 : formGet fdSample "status" = .str "paid" := rfl
    rw [h1, h2, h3]; exact safeParse_sample
  have := hA ⟨"c1", 5, .paid⟩ hp
  rw [this]
  simp [fmul_5_100, statusString]

end Dashboard
